import Mathlib

/-!
Shallow embedding of the abstract cacher core (`src/cachers/base.js`):
cache-key derivation (`_generateKeyFromObject`, `_hashObj`, `defaultKeygen`,
`getParamMetaValue`, `getCacheKey`) and the caching middleware protocol.

JavaScript values flowing through the key-derivation code are modelled by the
inductive type `JVal` (scalars, `null`, `undefined`, arrays, and objects whose
fields are kept in insertion order).  Machine-level collaborators used by the
code (`crypto.createHash("sha256")`, base64 digests, UTF-8 encoding of update
strings) are implemented concretely below so that every definition is
executable.
-/

/-- A JavaScript value as seen by the cache-key derivation code: strings,
numbers (modelled as integers), booleans, `null`, `undefined`, arrays, and
objects with fields in insertion order. -/
inductive JVal where
  | str (s : String)
  | num (n : Int)
  | bool (b : Bool)
  | null
  | undefined
  | arr (xs : List JVal)
  | obj (fields : List (String × JVal))

/-- JavaScript loose `x != null`: `null` and `undefined` are the nullish
values. -/
def isNullish : JVal → Bool
  | .null => true
  | .undefined => true
  | _ => false

/-- JavaScript truthiness of a value (used for `if (params || meta)`). -/
def truthy : JVal → Bool
  | .null => false
  | .undefined => false
  | .bool b => b
  | .num n => n != 0
  | .str s => s != ""
  | .arr _ => true
  | .obj _ => true

/-- lodash `_.isObject`: true exactly for arrays and plain objects among the
values we model (primitives and nullish values are not objects). -/
def isObjectJ : JVal → Bool
  | .arr _ => true
  | .obj _ => true
  | _ => false

/-- `Array.isArray`. -/
def isArrayJ : JVal → Bool
  | .arr _ => true
  | _ => false

/-- JavaScript string coercion as used by `"..." + val` in `defaultKeygen`. -/
def jsToString : JVal → String
  | .str s => s
  | .num n => toString n
  | .bool b => if b then "true" else "false"
  | .null => "null"
  | .undefined => "undefined"
  | .arr _ => ""
  | .obj _ => ""

/-- `String.prototype.startsWith`, computed on the character list. -/
def jsStartsWith (s pre : String) : Bool :=
  s.data.take pre.data.length == pre.data

/-- `String.prototype.slice(n)` for a non-negative start index. -/
def strDrop (s : String) (n : Nat) : String := String.mk (s.data.drop n)

/-- Split a path string on the "." separator (lodash path parsing for plain
dotted paths). -/
def splitOnDot (s : String) : List String :=
  (s.data.foldr
    (fun c acc => if c = '.' then [] :: acc else (c :: acc.headD []) :: acc.tail)
    [[]]).map String.mk

/-- Parse a decimal array index, as lodash does for numeric path segments. -/
def strToIndex? (s : String) : Option Nat :=
  if s.data ≠ [] ∧ s.data.all (fun c => c.isDigit) then
    some (s.data.foldl (fun n c => n * 10 + (c.toNat - 48)) 0)
  else none

/-- One step of a lodash `_.get` path walk: read a single path segment out of
a value (object field by name, array element by numeric index); anything else
yields `undefined`. -/
def jvalChild (v : JVal) (seg : String) : JVal :=
  match v with
  | .obj fields =>
    match fields.lookup seg with
    | some x => x
    | none => .undefined
  | .arr xs =>
    match strToIndex? seg with
    | some i =>
      match xs.get? i with
      | some x => x
      | none => .undefined
    | none => .undefined
  | _ => .undefined

/-- Walk a whole path, segment by segment. -/
def getPath : List String → JVal → JVal
  | [], v => v
  | seg :: rest, v => getPath rest (jvalChild v seg)

/-- lodash `_.get(value, path)` with dotted-path semantics. -/
def lodashGet (v : JVal) (path : String) : JVal :=
  getPath (splitOnDot path) v

mutual

/-- `Cacher.prototype._generateKeyFromObject`: deterministic stringification.
Arrays map recursively and join with "|"; objects emit `key|value` pairs in
insertion order joined with "|"; nullish values become "null"; other values
use their string coercion. -/
def _generateKeyFromObject : JVal → String
  | .arr xs => String.intercalate "|" (genKeyList xs)
  | .obj fields => String.intercalate "|" (genKeyFields fields)
  | .str s => s
  | .num n => toString n
  | .bool b => if b then "true" else "false"
  | .null => "null"
  | .undefined => "null"

/-- Stringify each element of an array. -/
def genKeyList : List JVal → List String
  | [] => []
  | v :: rest => _generateKeyFromObject v :: genKeyList rest

/-- Stringify each `[key, value]` entry of an object. -/
def genKeyFields : List (String × JVal) → List String
  | [] => []
  | (k, v) :: rest => (k ++ "|" ++ _generateKeyFromObject v) :: genKeyFields rest

end

example : _generateKeyFromObject (.obj [("id", .num 5)]) = "id|5" := by decide
example : _generateKeyFromObject (.arr [.str "a", .str "b"]) = "a|b" := by decide
example : _generateKeyFromObject (.obj [("a", .str "1|b"), ("c", .num 2)]) = "a|1|b|c|2" := by decide
example : _generateKeyFromObject (.obj [("a", .num 1), ("b", .obj [("c", .num 2)])]) = "a|1|b|c|2" := by decide

/-!
SHA-256 and base64, modelling Node's
`crypto.createHash("sha256").update(key).digest("base64")` (the `update`
string is UTF-8 encoded).  Words are 32-bit, modelled as `Nat` reduced
modulo `2 ^ 32`.
-/

/-- Reduce to a 32-bit word. -/
def w32 (n : Nat) : Nat := n % 4294967296

/-- 32-bit right rotation (argument assumed below `2 ^ 32`). -/
def rotr32 (x n : Nat) : Nat := w32 (x >>> n ||| x <<< (32 - n))

/-- SHA-256 Σ0. -/
def bigSigma0 (x : Nat) : Nat := rotr32 x 2 ^^^ rotr32 x 13 ^^^ rotr32 x 22

/-- SHA-256 Σ1. -/
def bigSigma1 (x : Nat) : Nat := rotr32 x 6 ^^^ rotr32 x 11 ^^^ rotr32 x 25

/-- SHA-256 σ0. -/
def smallSigma0 (x : Nat) : Nat := rotr32 x 7 ^^^ rotr32 x 18 ^^^ x >>> 3

/-- SHA-256 σ1. -/
def smallSigma1 (x : Nat) : Nat := rotr32 x 17 ^^^ rotr32 x 19 ^^^ x >>> 10

/-- SHA-256 Ch(x,y,z). -/
def chNat (x y z : Nat) : Nat := x &&& y ^^^ ((x ^^^ 4294967295) &&& z)

/-- SHA-256 Maj(x,y,z). -/
def majNat (x y z : Nat) : Nat := x &&& y ^^^ x &&& z ^^^ y &&& z

/-- The eight 32-bit working variables of SHA-256. -/
structure Sha256State where
  a : Nat
  b : Nat
  c : Nat
  d : Nat
  e : Nat
  f : Nat
  g : Nat
  h : Nat

/-- SHA-256 initial hash value. -/
def sha256Init : Sha256State :=
  ⟨1779033703, 3144134277, 1013904242, 2773480762,
   1359893119, 2600822924, 528734635, 1541459225⟩

/-- The 64 SHA-256 round constants. -/
def sha256K : List Nat :=
  [1116352408, 1899447441, 3049323471, 3921009573,
   961987163, 1508970993, 2453635748, 2870763221,
   3624381080, 310598401, 607225278, 1426881987,
   1925078388, 2162078206, 2614888103, 3248222580,
   3835390401, 4022224774, 264347078, 604807628,
   770255983, 1249150122, 1555081692, 1996064986,
   2554220882, 2821834349, 2952996808, 3210313671,
   3336571891, 3584528711, 113926993, 338241895,
   666307205, 773529912, 1294757372, 1396182291,
   1695183700, 1986661051, 2177026350, 2456956037,
   2730485921, 2820302411, 3259730800, 3345764771,
   3516065817, 3600352804, 4094571909, 275423344,
   430227734, 506948616, 659060556, 883997877,
   958139571, 1322822218, 1537002063, 1747873779,
   1955562222, 2024104815, 2227730452, 2361852424,
   2428436474, 2756734187, 3204031479, 3329325298]

/-- Extend the message schedule by one word. -/
def sha256ExtendStep (ws : List Nat) : List Nat :=
  let n := ws.length
  ws ++ [w32 (smallSigma1 (ws.getD (n - 2) 0) + ws.getD (n - 7) 0 +
              smallSigma0 (ws.getD (n - 15) 0) + ws.getD (n - 16) 0)]

/-- Extend a 16-word block to the full 64-word message schedule. -/
def sha256Schedule (block : List Nat) : List Nat :=
  Nat.repeat sha256ExtendStep 48 block

/-- One SHA-256 compression round, consuming a pair `(K[t], W[t])`. -/
def sha256Round (s : Sha256State) (kw : Nat × Nat) : Sha256State :=
  let t1 := w32 (s.h + bigSigma1 s.e + chNat s.e s.f s.g + kw.1 + kw.2)
  let t2 := w32 (bigSigma0 s.a + majNat s.a s.b s.c)
  ⟨w32 (t1 + t2), s.a, s.b, s.c, w32 (s.d + t1), s.e, s.f, s.g⟩

/-- Compress one 16-word block into the running state. -/
def sha256Compress (s : Sha256State) (block : List Nat) : Sha256State :=
  let t := ((sha256K.zip (sha256Schedule block)).foldl sha256Round s)
  ⟨w32 (s.a + t.a), w32 (s.b + t.b), w32 (s.c + t.c), w32 (s.d + t.d),
   w32 (s.e + t.e), w32 (s.f + t.f), w32 (s.g + t.g), w32 (s.h + t.h)⟩

/-- Big-endian 8-byte encoding of the message bit length. -/
def lenBytes8 (n : Nat) : List Nat :=
  [n / 72057594037927936 % 256, n / 281474976710656 % 256,
   n / 1099511627776 % 256, n / 4294967296 % 256,
   n / 16777216 % 256, n / 65536 % 256, n / 256 % 256, n % 256]

/-- SHA-256 padding: append `0x80`, zero bytes up to 56 mod 64, then the
64-bit big-endian bit length. -/
def sha256Pad (msg : List Nat) : List Nat :=
  msg ++ 128 :: List.replicate ((119 - msg.length % 64) % 64) 0 ++ lenBytes8 (msg.length * 8)

/-- Group four consecutive bytes into one big-endian 32-bit word. -/
def bytesToWords : List Nat → List Nat
  | a :: b :: c :: d :: rest => (a * 16777216 + b * 65536 + c * 256 + d) :: bytesToWords rest
  | _ => []

/-- Split a byte list into 64-byte blocks. -/
def toBlocks (l : List Nat) : List (List Nat) :=
  if h : l = [] then []
  else l.take 64 :: toBlocks (l.drop 64)
termination_by l.length
decreasing_by
  simp only [List.length_drop]
  have : 0 < l.length := List.length_pos.mpr h
  omega

/-- Big-endian bytes of one 32-bit word. -/
def wordBytes (w : Nat) : List Nat :=
  [w / 16777216 % 256, w / 65536 % 256, w / 256 % 256, w % 256]

/-- SHA-256 digest (32 bytes) of a byte message. -/
def sha256Bytes (msg : List Nat) : List Nat :=
  let s := (toBlocks (sha256Pad msg)).foldl (fun st blk => sha256Compress st (bytesToWords blk)) sha256Init
  wordBytes s.a ++ wordBytes s.b ++ wordBytes s.c ++ wordBytes s.d ++
  wordBytes s.e ++ wordBytes s.f ++ wordBytes s.g ++ wordBytes s.h

/-- UTF-8 encoding of one code point. -/
def encodeCharUtf8 (c : Nat) : List Nat :=
  if c < 128 then [c]
  else if c < 2048 then [192 + c / 64, 128 + c % 64]
  else if c < 65536 then [224 + c / 4096, 128 + c / 64 % 64, 128 + c % 64]
  else [240 + c / 262144, 128 + c / 4096 % 64, 128 + c / 64 % 64, 128 + c % 64]

/-- UTF-8 bytes of a string. -/
def utf8Bytes (s : String) : List Nat :=
  s.data.foldr (fun c acc => encodeCharUtf8 c.toNat ++ acc) []

/-- The base64 alphabet. -/
def b64Alpha : List Char :=
  "ABCDEFGHIJKLMNOPQRSTUVWXYZabcdefghijklmnopqrstuvwxyz0123456789+/".data

/-- Character for one 6-bit group. -/
def b64c (n : Nat) : Char := b64Alpha.getD n '='

/-- Standard base64 encoding (with padding) of a byte list, as characters. -/
def base64Chars : List Nat → List Char
  | [] => []
  | [a] => [b64c (a / 4), b64c (a % 4 * 16), '=', '=']
  | [a, b] => [b64c (a / 4), b64c (a % 4 * 16 + b / 16), b64c (b % 16 * 4), '=']
  | a :: b :: c :: rest =>
    b64c (a / 4) :: b64c (a % 4 * 16 + b / 16) :: b64c (b % 16 * 4 + c / 64) :: b64c (c % 64) ::
    base64Chars rest

/-- `base64(sha256(s))` for a string `s`, as Node's
`createHash("sha256").update(s).digest("base64")` computes it. -/
def sha256Base64 (s : String) : String :=
  String.mk (base64Chars (sha256Bytes (utf8Bytes s)))


/-!
Cacher options and the key-derivation operations of `Cacher`.
-/

/-- Cacher options after construction.  `maxKeyLength` is `none` when the
option was not supplied (the constructor default is 44); `keygen` is an
optional custom key-generator function. -/
structure CacherOpts where
  ttl : Option Int := none
  keygen : Option (String → JVal → JVal → Option (List String) → String) := none
  maxKeyLength : Option Int := none

/-- The value of `this.opts.maxKeyLength || 44`: an absent option and the
falsy number 0 both yield 44; every other configured number is used as is. -/
def effectiveMaxKeyLength (o : Option Int) : Int :=
  match o with
  | none => 44
  | some m => if m = 0 then 44 else m

/-- `Cacher.prototype._hashObj`: stringify the value; keep it whole when the
effective `maxKeyLength` is below 44 or the key already fits; otherwise keep
the first `maxKeyLength - 44` characters and append the 44-character
base64 SHA-256 digest of the whole key. -/
def _hashObj (opts : CacherOpts) (obj : JVal) : String :=
  let maxKeyLength := effectiveMaxKeyLength opts.maxKeyLength
  let key := _generateKeyFromObject obj
  if maxKeyLength < 44 ∨ (key.length : Int) ≤ maxKeyLength then key
  else
    let prefixLength := maxKeyLength - 44
    let base64Hash := sha256Base64 key
    if prefixLength < 1 then base64Hash
    else String.mk (key.data.take prefixLength.toNat) ++ base64Hash

/-- `Cacher.prototype.getParamMetaValue`: a selector starting with `#` reads
from `meta` with the `#` stripped — but only when `meta` is non-nullish;
otherwise the branch falls through to a `params` lookup with the untouched
selector (when `params` is non-nullish), and only failing that the result is
`undefined`. -/
def getParamMetaValue (key : String) (params meta : JVal) : JVal :=
  if jsStartsWith key "#" && !(isNullish meta) then lodashGet meta (strDrop key 1)
  else if !(isNullish params) then lodashGet params key
  else .undefined

/-- `Cacher.prototype.defaultKeygen`.  Note the JavaScript truthiness of the
`keys` array: an empty list enters the `if (keys)` branch, matches neither
length test, and falls through to the trailing `return actionName`. -/
def defaultKeygen (opts : CacherOpts) (actionName : String) (params meta : JVal)
    (keys : Option (List String)) : String :=
  if truthy params || truthy meta then
    let keyPre := actionName ++ ":"
    match keys with
    | some ks =>
      if ks.length == 1 then
        let val := getParamMetaValue (ks.headD "") params meta
        keyPre ++ (if isObjectJ val then _hashObj opts val else jsToString val)
      else if ks.length > 0 then
        ks.enum.foldl
          (fun a iv =>
            let val := getParamMetaValue iv.2 params meta
            a ++ (if iv.1 != 0 then "|" else "") ++
              (if isObjectJ val || isArrayJ val then _hashObj opts val else jsToString val))
          keyPre
      else actionName
    | none => keyPre ++ _hashObj opts params
  else actionName

/-- `Cacher.prototype.getCacheKey`: dispatch to the configured custom keygen
function when present, else to `defaultKeygen`. -/
def getCacheKey (opts : CacherOpts) (actionName : String) (params meta : JVal)
    (keys : Option (List String)) : String :=
  match opts.keygen with
  | some f => f actionName params meta keys
  | none => defaultKeygen opts actionName params meta keys

example : defaultKeygen {} "get" (.obj [("id", .num 5)]) .null (some ["id"]) = "get:5" := by decide
example : defaultKeygen {} "get" (.obj [("id", .num 5), ("name", .str "x")]) .null
    (some ["id", "name"]) = "get:5|x" := by decide
example : defaultKeygen {} "get" .null .null none = "get" := by decide
example : defaultKeygen {} "get" (.obj [("id", .num 5)]) .null (some []) = "get" := by decide
example : defaultKeygen {} "get" (.obj [("id", .num 5)]) .null none = "get:id|5" := by decide

/-!
The caching middleware (`Cacher.prototype.middleware`), modelled for a single
invocation.  The asynchronous promise chain is embedded as explicit state
passing: the storage backend's `get` is an oracle `cGet`, the backend's `set`
is an oracle `cSet` whose outcome is *dropped* by the code (the promise
returned by `this.set` is neither awaited nor chained), and the whole
observable behaviour of one invocation is collected in a trace.
-/

/-- Per-action cache configuration (`action.cache`), carrying the optional
selector list and the optional ttl override. -/
structure CacheConfig where
  keys : Option (List String) := none
  ttl : Option Int := none

/-- An action descriptor as the middleware sees it. -/
structure ActionDesc where
  name : String
  cache : Option CacheConfig := none

/-- The invocation context: `params` and `meta` bags plus the mutable
`cachedResult` flag. -/
structure Ctx where
  params : JVal := .null
  meta : JVal := .null
  cachedResult : Bool := false

/-- Observable trace of one invocation through the (possibly wrapped)
handler: the value/error produced, the context after the call, the list of
contexts the original handler was invoked with, and the storage backend
calls that were issued. -/
structure MWTrace where
  result : Except String JVal
  ctxAfter : Ctx
  handlerArgs : List Ctx
  getCalls : List String
  setCalls : List (String × JVal × Option Int)

/-- One invocation through `Cacher.prototype.middleware`'s wrapper.  With no
`action.cache` config the original handler is returned unmodified, so the
trace is exactly the handler's own behaviour.  Otherwise: compute the key,
ask the backend (`cGet`); on a non-null content set `ctx.cachedResult` and
return the content without calling the handler; on null call the handler
once with the unmodified context and, when it succeeds, issue `set` —
whose outcome `cSet` produces is discarded — and return the handler's
result. -/
def runCachedHandler (opts : CacherOpts) (action : ActionDesc)
    (cGet : String → Option JVal)
    (cSet : String → JVal → Option Int → Except String Unit)
    (handler : Ctx → Except String JVal) (ctx : Ctx) : MWTrace :=
  match action.cache with
  | none =>
    { result := handler ctx, ctxAfter := ctx, handlerArgs := [ctx],
      getCalls := [], setCalls := [] }
  | some cache =>
    let cacheKey := getCacheKey opts action.name ctx.params ctx.meta cache.keys
    match cGet cacheKey with
    | some content =>
      { result := .ok content, ctxAfter := { ctx with cachedResult := true },
        handlerArgs := [], getCalls := [cacheKey], setCalls := [] }
    | none =>
      match handler ctx with
      | .ok result =>
        let _ := cSet cacheKey result cache.ttl
        { result := .ok result, ctxAfter := ctx, handlerArgs := [ctx],
          getCalls := [cacheKey], setCalls := [(cacheKey, result, cache.ttl)] }
      | .error e =>
        { result := .error e, ctxAfter := ctx, handlerArgs := [ctx],
          getCalls := [cacheKey], setCalls := [] }

/-!
Supporting lemmas.
-/

/-- A SHA-256 digest always has exactly 32 bytes. -/
theorem sha256Bytes_length (msg : List Nat) : (sha256Bytes msg).length = 32 := by
  simp [sha256Bytes, wordBytes]

/-- Base64 output length: four characters per started three-byte group. -/
theorem base64Chars_length (l : List Nat) :
    (base64Chars l).length = 4 * ((l.length + 2) / 3) := by
  induction l using base64Chars.induct <;> simp_all [base64Chars] <;> omega

/-- The base64 SHA-256 digest of any string has exactly 44 characters. -/
theorem sha256Base64_length (s : String) : (sha256Base64 s).length = 44 := by
  simp [sha256Base64, String.length, base64Chars_length, sha256Bytes_length]

/-- C1: the claim is false as stated — with an explicit empty `keys` list,
`defaultKeygen` does *not* fall through to whole-params hashing; the empty
array is truthy in JavaScript, enters the `if (keys)` branch, matches neither
length test, and reaches the trailing `return actionName`.  Amended claim:
for every options record, action name, params and meta, `defaultKeygen` with
`keys = []` returns the bare action name, with no `":"` suffix and no params
hashing. -/
theorem defaultKeygen_emptyKeys_returns_actionName (opts : CacherOpts)
    (actionName : String) (params meta : JVal) :
    defaultKeygen opts actionName params meta (some []) = actionName := by
  unfold defaultKeygen
  split <;> rfl

/-- C1 counterexample: at `actionName = "get"`, `params = {id: 5}`,
`meta = null`, the empty-list call and the absent-keys call disagree
("get" versus "get:id|5"). -/
theorem emptyKeys_differs_from_noKeys :
    defaultKeygen {} "get" (.obj [("id", .num 5)]) .null (some []) ≠
      defaultKeygen {} "get" (.obj [("id", .num 5)]) .null none := by
  decide

/-- C7: the spec's concrete `defaultKeygen` scenarios, evaluated on the
default options: a single plain selector gives `"get:5"`, two plain
selectors give `"get:5|x"`, and null params with null meta give `"get"`. -/
theorem defaultKeygen_scenarios :
    defaultKeygen {} "get" (.obj [("id", .num 5)]) .null (some ["id"]) = "get:5" ∧
    defaultKeygen {} "get" (.obj [("id", .num 5), ("name", .str "x")]) .null
      (some ["id", "name"]) = "get:5|x" ∧
    defaultKeygen {} "get" .null .null none = "get" := by
  refine ⟨by decide, by decide, by decide⟩

/-- C10: `_generateKeyFromObject` is not injective, because the "|"
separator is never escaped: the array `["a","b"]` collides with the plain
string `"a|b"`, and `{a: "1|b", c: 2}` collides with `{a: 1, b: {c: 2}}`. -/
theorem generateKey_not_injective :
    _generateKeyFromObject (.arr [.str "a", .str "b"]) = _generateKeyFromObject (.str "a|b") ∧
    JVal.arr [.str "a", .str "b"] ≠ JVal.str "a|b" ∧
    _generateKeyFromObject (.obj [("a", .str "1|b"), ("c", .num 2)]) =
      _generateKeyFromObject (.obj [("a", .num 1), ("b", .obj [("c", .num 2)])]) ∧
    JVal.obj [("a", .str "1|b"), ("c", .num 2)] ≠
      JVal.obj [("a", .num 1), ("b", .obj [("c", .num 2)])] := by
  refine ⟨by decide, by simp, by decide, by simp⟩

/-- C6: corrected.  When the selector starts with `#` *and meta is
non-nullish*, the lookup strips the prefix and reads from meta (never from
params).  But when meta is null/absent the claim fails: the code falls
through to the params branch and looks the *unstripped* selector up in
params; only when params is also nullish is `undefined` returned. -/
theorem getParamMetaValue_hash_selector_cases (key : String) (params meta : JVal)
    (hk : jsStartsWith key "#" = true) :
    (isNullish meta = false →
      getParamMetaValue key params meta = lodashGet meta (strDrop key 1)) ∧
    (isNullish meta = true → isNullish params = false →
      getParamMetaValue key params meta = lodashGet params key) ∧
    (isNullish meta = true → isNullish params = true →
      getParamMetaValue key params meta = JVal.undefined) := by
  refine ⟨fun hm => ?_, fun hm hp => ?_, fun hm hp => ?_⟩ <;>
    simp [getParamMetaValue, hk, hm, *]

/-- C6 counterexample: with `meta = null` and `params = {"#a": 5}`, the
selector `"#a"` does *not* yield `undefined` — the code reads `params["#a"]`
and returns 5. -/
theorem hash_selector_null_meta_reads_params :
    getParamMetaValue "#a" (.obj [("#a", .num 5)]) .null ≠ JVal.undefined := by
  have h : getParamMetaValue "#a" (.obj [("#a", .num 5)]) .null = .num 5 := rfl
  rw [h]
  simp

/-- C6 witness: the three cases of the corrected claim, instantiated. -/
theorem getParamMetaValue_hash_selector_cases_witness :
    jsStartsWith "#a" "#" = true ∧
    getParamMetaValue "#a" (.obj [("a", .num 1)]) (.obj [("a", .num 2)]) =
      lodashGet (.obj [("a", .num 2)]) (strDrop "#a" 1) ∧
    getParamMetaValue "#a" (.obj [("a", .num 1)]) .null =
      lodashGet (.obj [("a", .num 1)]) "#a" ∧
    getParamMetaValue "#a" .null .null = JVal.undefined :=
  ⟨by decide,
   (getParamMetaValue_hash_selector_cases "#a" (.obj [("a", .num 1)])
      (.obj [("a", .num 2)]) (by decide)).1 (by decide),
   (getParamMetaValue_hash_selector_cases "#a" (.obj [("a", .num 1)])
      .null (by decide)).2.1 (by decide) (by decide),
   (getParamMetaValue_hash_selector_cases "#a" .null .null (by decide)).2.2
      (by decide) (by decide)⟩

/-- Length of a string built from a character list. -/
theorem strLength_mk (l : List Char) : (String.mk l).length = l.length := rfl

/-- String concatenation adds lengths. -/
theorem strLength_append (s t : String) : (s ++ t).length = s.length + t.length := by
  cases s
  cases t
  exact List.length_append ..

/-- `String.length` is the length of the character list. -/
theorem strLength_data (s : String) : s.length = s.data.length := rfl

/-- Options with `maxKeyLength` configured to the falsy number 0. -/
def optsZeroMKL : CacherOpts := { maxKeyLength := some 0 }

/-- A 45-character string (one longer than a base64 SHA-256 digest). -/
def s45 : String := "aaaaaaaaaaaaaaaaaaaaaaaaaaaaaaaaaaaaaaaaaaaaa"

/-- C3: corrected.  The identity behaviour holds for every *non-zero*
configured `maxKeyLength` below 44 (negative values included), but not for
0: `this.opts.maxKeyLength || 44` treats the falsy number 0 as "not
configured" and substitutes the default 44, so hashing is applied again.
Amended claim: for every value and every configured `maxKeyLength` that is
non-zero and strictly less than 44, `_hashObj` returns the stringified value
unchanged, whatever its length. -/
theorem hashObj_small_nonzero_maxKeyLength_identity (opts : CacherOpts) (m : Int)
    (v : JVal) (hm : opts.maxKeyLength = some m) (h0 : m ≠ 0) (h44 : m < 44) :
    _hashObj opts v = _generateKeyFromObject v := by
  have he : effectiveMaxKeyLength opts.maxKeyLength = m := by
    simp [effectiveMaxKeyLength, hm, h0]
  simp only [_hashObj, he]
  rw [if_pos (Or.inl h44)]

/-- C3 witness: `maxKeyLength = 10` (non-zero, < 44) leaves even an
11-character stringification unchanged. -/
theorem hashObj_small_nonzero_maxKeyLength_identity_witness :
    CacherOpts.maxKeyLength { maxKeyLength := some 10 } = some 10 ∧ (10 : Int) ≠ 0 ∧
      (10 : Int) < 44 ∧
      _hashObj { maxKeyLength := some 10 } (.obj [("hello", .str "world")]) =
        _generateKeyFromObject (.obj [("hello", .str "world")]) :=
  ⟨rfl, by decide, by decide,
   hashObj_small_nonzero_maxKeyLength_identity { maxKeyLength := some 10 } 10
     (.obj [("hello", .str "world")]) rfl (by decide) (by decide)⟩

/-- C3 counterexample: with `maxKeyLength` configured to 0 and a
45-character value, `_hashObj` does *not* return the stringification
unchanged — the `|| 44` default kicks in and the 45-character key is
replaced by its 44-character digest. -/
theorem hashObj_maxKeyLength_zero_hashes :
    _hashObj optsZeroMKL (JVal.str s45) ≠ _generateKeyFromObject (JVal.str s45) := by
  intro h
  have e : _hashObj optsZeroMKL (JVal.str s45) = sha256Base64 s45 := by
    simp only [_hashObj, optsZeroMKL, effectiveMaxKeyLength, _generateKeyFromObject]
    rw [if_neg (by decide), if_pos (by decide)]
  have h44 : (_hashObj optsZeroMKL (JVal.str s45)).length = 44 := by
    rw [e, sha256Base64_length]
  rw [h] at h44
  have h45 : (_generateKeyFromObject (JVal.str s45)).length = 45 := by decide
  omega

/-- C8: round-trip — whenever the stringified value already fits within the
configured `maxKeyLength`, `_hashObj` returns it unchanged (this also covers
the degenerate configured value 0, where only the empty string fits and the
effective limit becomes 44). -/
theorem hashObj_roundtrip (opts : CacherOpts) (m : Int) (v : JVal)
    (hm : opts.maxKeyLength = some m)
    (hlen : ((_generateKeyFromObject v).length : Int) ≤ m) :
    _hashObj opts v = _generateKeyFromObject v := by
  by_cases h0 : m = 0
  · subst h0
    have he : effectiveMaxKeyLength opts.maxKeyLength = 44 := by
      simp [effectiveMaxKeyLength, hm]
    simp only [_hashObj, he]
    rw [if_pos (Or.inr (by omega))]
  · have he : effectiveMaxKeyLength opts.maxKeyLength = m := by
      simp [effectiveMaxKeyLength, hm, h0]
    simp only [_hashObj, he]
    rw [if_pos (Or.inr hlen)]

/-- C8 witness: a 4-character stringification fits in `maxKeyLength = 50`
and survives the round-trip. -/
theorem hashObj_roundtrip_witness :
    CacherOpts.maxKeyLength { maxKeyLength := some 50 } = some 50 ∧
      ((_generateKeyFromObject (.obj [("id", .num 5)])).length : Int) ≤ 50 ∧
      _hashObj { maxKeyLength := some 50 } (.obj [("id", .num 5)]) =
        _generateKeyFromObject (.obj [("id", .num 5)]) :=
  ⟨rfl, by decide,
   hashObj_roundtrip { maxKeyLength := some 50 } 50 (.obj [("id", .num 5)]) rfl (by decide)⟩

/-- Prepending an empty character list is the identity on strings. -/
theorem mk_nil_append (s : String) : String.mk [] ++ s = s := by
  cases s
  rfl

/-- C5: with `maxKeyLength >= 44` the result of `_hashObj` never exceeds
`maxKeyLength` characters: the stringification is returned when it already
fits, and otherwise its first `maxKeyLength - 44` characters are
concatenated with the 44-character base64 SHA-256 digest of the whole
stringification (for `maxKeyLength = 44` that prefix is empty and the digest
alone is returned). -/
theorem hashObj_bounded_length (opts : CacherOpts) (m : Int) (v : JVal)
    (hm : opts.maxKeyLength = some m) (h44 : 44 ≤ m) :
    ((_hashObj opts v).length : Int) ≤ m ∧
    (((_generateKeyFromObject v).length : Int) ≤ m →
      _hashObj opts v = _generateKeyFromObject v) ∧
    (m < ((_generateKeyFromObject v).length : Int) →
      _hashObj opts v =
        String.mk ((_generateKeyFromObject v).data.take (m - 44).toNat) ++
          sha256Base64 (_generateKeyFromObject v)) := by
  have he : effectiveMaxKeyLength opts.maxKeyLength = m := by
    simp only [effectiveMaxKeyLength, hm]
    rw [if_neg (by omega)]
  by_cases hfit : ((_generateKeyFromObject v).length : Int) ≤ m
  · have e : _hashObj opts v = _generateKeyFromObject v := by
      simp only [_hashObj, he]
      rw [if_pos (Or.inr hfit)]
    exact ⟨by rw [e]; exact hfit, fun _ => e,
      fun hgt => absurd hgt (not_lt.mpr hfit)⟩
  · have hcond : ¬(m < 44 ∨ ((_generateKeyFromObject v).length : Int) ≤ m) := by
      rintro (h | h)
      · omega
      · exact hfit h
    by_cases hm44 : m - 44 < 1
    · have hm' : m = 44 := by omega
      have e : _hashObj opts v = sha256Base64 (_generateKeyFromObject v) := by
        simp only [_hashObj, he]
        rw [if_neg hcond, if_pos hm44]
      refine ⟨by rw [e, sha256Base64_length]; omega, fun hf => absurd hf hfit, fun _ => ?_⟩
      subst hm'
      rw [e]
      have ht : ((44 : Int) - 44).toNat = 0 := rfl
      rw [ht, List.take_zero, mk_nil_append]
    · have e : _hashObj opts v =
          String.mk ((_generateKeyFromObject v).data.take (m - 44).toNat) ++
            sha256Base64 (_generateKeyFromObject v) := by
        simp only [_hashObj, he]
        rw [if_neg hcond, if_neg hm44]
      refine ⟨?_, fun hf => absurd hf hfit, fun _ => e⟩
      rw [e, strLength_append, strLength_mk, List.length_take, sha256Base64_length]
      have hcast : (((m - 44).toNat : Int)) = m - 44 := Int.toNat_of_nonneg (by omega)
      omega

/-- C5 witness: `maxKeyLength = 44` with a 45-character value — the result
is the bare 44-character digest, matching the empty-prefix form. -/
theorem hashObj_bounded_length_witness :
    CacherOpts.maxKeyLength { maxKeyLength := some 44 } = some 44 ∧ (44 : Int) ≤ 44 ∧
      ((_hashObj { maxKeyLength := some 44 } (JVal.str s45)).length : Int) ≤ 44 ∧
      ((44 : Int) < ((_generateKeyFromObject (JVal.str s45)).length : Int) →
        _hashObj { maxKeyLength := some 44 } (JVal.str s45) =
          String.mk ((_generateKeyFromObject (JVal.str s45)).data.take ((44 : Int) - 44).toNat) ++
            sha256Base64 (_generateKeyFromObject (JVal.str s45))) :=
  ⟨rfl, by decide,
   (hashObj_bounded_length { maxKeyLength := some 44 } 44 (JVal.str s45) rfl (by decide)).1,
   (hashObj_bounded_length { maxKeyLength := some 44 } 44 (JVal.str s45) rfl (by decide)).2.2⟩

/-- C2: for every action carrying a cache config and every invocation
context — if the backend returns non-null content for the computed key, the
wrapped handler is never invoked, `ctx.cachedResult` is set, and the cached
content is returned; if the backend returns null and the handler produces a
result, the handler runs exactly once with the unmodified context, `set` is
issued exactly once with the handler's result and the config's ttl, and
that result is returned. -/
theorem middleware_hit_serves_cache_miss_calls_handler (opts : CacherOpts)
    (action : ActionDesc) (cfg : CacheConfig) (cGet : String → Option JVal)
    (cSet : String → JVal → Option Int → Except String Unit)
    (handler : Ctx → Except String JVal) (ctx : Ctx)
    (hc : action.cache = some cfg) :
    (∀ content,
      cGet (getCacheKey opts action.name ctx.params ctx.meta cfg.keys) = some content →
      runCachedHandler opts action cGet cSet handler ctx =
        { result := .ok content, ctxAfter := { ctx with cachedResult := true },
          handlerArgs := [],
          getCalls := [getCacheKey opts action.name ctx.params ctx.meta cfg.keys],
          setCalls := [] }) ∧
    (cGet (getCacheKey opts action.name ctx.params ctx.meta cfg.keys) = none →
      ∀ r, handler ctx = .ok r →
      runCachedHandler opts action cGet cSet handler ctx =
        { result := .ok r, ctxAfter := ctx, handlerArgs := [ctx],
          getCalls := [getCacheKey opts action.name ctx.params ctx.meta cfg.keys],
          setCalls :=
            [(getCacheKey opts action.name ctx.params ctx.meta cfg.keys, r, cfg.ttl)] }) := by
  constructor
  · intro content hget
    simp [runCachedHandler, hc, hget]
  · intro hget r hok
    simp [runCachedHandler, hc, hget, hok]

/-- Concrete cache config for the middleware witnesses. -/
def wCfg : CacheConfig := {}

/-- Concrete cached action for the middleware witnesses. -/
def wAction : ActionDesc := { name := "get", cache := some wCfg }

/-- Concrete context for the middleware witnesses. -/
def wCtx : Ctx := { params := .obj [("id", .num 5)] }

/-- Concrete handler for the middleware witnesses. -/
def wHandler : Ctx → Except String JVal := fun _ => .ok (.num 9)

/-- The cache key the witnesses' action computes. -/
def wKey : String := getCacheKey {} wAction.name wCtx.params wCtx.meta wCfg.keys

/-- A storage backend `set` that always succeeds. -/
def wSetOk : String → JVal → Option Int → Except String Unit := fun _ _ _ => .ok ()

/-- A storage backend `set` that always fails. -/
def wSetFail : String → JVal → Option Int → Except String Unit :=
  fun _ _ _ => .error "backend write failure"

/-- C2 witness: the hit branch with cached content 7 and the miss branch
with handler result 9, both at the concrete action/context. -/
theorem middleware_hit_miss_witness :
    wAction.cache = some wCfg ∧
    runCachedHandler {} wAction (fun _ => some (.num 7)) wSetOk wHandler wCtx =
      { result := .ok (.num 7), ctxAfter := { wCtx with cachedResult := true },
        handlerArgs := [], getCalls := [wKey], setCalls := [] } ∧
    runCachedHandler {} wAction (fun _ => none) wSetOk wHandler wCtx =
      { result := .ok (.num 9), ctxAfter := wCtx, handlerArgs := [wCtx],
        getCalls := [wKey], setCalls := [(wKey, .num 9, none)] } :=
  ⟨rfl,
   (middleware_hit_serves_cache_miss_calls_handler {} wAction wCfg
      (fun _ => some (.num 7)) wSetOk wHandler wCtx rfl).1 (.num 7) rfl,
   (middleware_hit_serves_cache_miss_calls_handler {} wAction wCfg
      (fun _ => none) wSetOk wHandler wCtx rfl).2 rfl (.num 9) rfl⟩

/-- C4: a failing backend `set` cannot turn a successful cache-miss
invocation into a failure.  The code drops the promise returned by
`this.set` without awaiting or chaining it, so for *every* possible `set`
behaviour — succeeding or failing — the handler's result is what the caller
receives. -/
theorem set_failure_not_propagated (opts : CacherOpts) (action : ActionDesc)
    (cfg : CacheConfig) (cGet : String → Option JVal)
    (handler : Ctx → Except String JVal) (ctx : Ctx) (r : JVal)
    (hc : action.cache = some cfg)
    (hget : cGet (getCacheKey opts action.name ctx.params ctx.meta cfg.keys) = none)
    (hok : handler ctx = .ok r) :
    ∀ cSet : String → JVal → Option Int → Except String Unit,
      (runCachedHandler opts action cGet cSet handler ctx).result = .ok r := by
  intro cSet
  simp [runCachedHandler, hc, hget, hok]

/-- C4 witness: even with a backend `set` that always fails, the miss
invocation still returns the handler's result 9. -/
theorem set_failure_not_propagated_witness :
    wAction.cache = some wCfg ∧
    (fun _ : String => (none : Option JVal)) wKey = none ∧ wHandler wCtx = .ok (.num 9) ∧
    (runCachedHandler {} wAction (fun _ => none) wSetFail wHandler wCtx).result =
      .ok (.num 9) :=
  ⟨rfl, rfl, rfl,
   set_failure_not_propagated {} wAction wCfg (fun _ => none) wHandler wCtx
     (.num 9) rfl rfl rfl wSetFail⟩

/-- C9: for an action without cache configuration the middleware factory
returns the original handler unmodified — the invocation produces exactly
the handler's own result, no storage `get` or `set` is issued, the context
(including `cachedResult`) is untouched, and the handler runs once with the
given context. -/
theorem middleware_no_cache_passthrough (opts : CacherOpts) (action : ActionDesc)
    (cGet : String → Option JVal)
    (cSet : String → JVal → Option Int → Except String Unit)
    (handler : Ctx → Except String JVal) (ctx : Ctx)
    (hc : action.cache = none) :
    runCachedHandler opts action cGet cSet handler ctx =
      { result := handler ctx, ctxAfter := ctx, handlerArgs := [ctx],
        getCalls := [], setCalls := [] } := by
  simp [runCachedHandler, hc]

/-- An action with no cache configuration, for the C9 witness. -/
def wPlainAction : ActionDesc := { name := "get" }

/-- C9 witness: the uncached action is a pure pass-through at the concrete
context. -/
theorem middleware_no_cache_passthrough_witness :
    wPlainAction.cache = none ∧
    runCachedHandler {} wPlainAction (fun _ => some (.num 7)) wSetOk wHandler wCtx =
      { result := wHandler wCtx, ctxAfter := wCtx, handlerArgs := [wCtx],
        getCalls := [], setCalls := [] } :=
  ⟨rfl,
   middleware_no_cache_passthrough {} wPlainAction (fun _ => some (.num 7))
     wSetOk wHandler wCtx rfl⟩
